import Mathlib

/-!
Shallow embedding of `src/dbt_runner.py` (class `DbtCloudRunner`), a client
for the dbt Cloud v2 REST API.  Network interaction is scripted: each
operation that reads an HTTP response takes the decoded response content
(status code, body text, success flag) as an explicit argument, and
operations that send requests return the request they would send as a value.
Python `None`-able parameters become `Option`; Python truthiness of strings,
lists and integers is made explicit by the `truthyS`/`truthyL`/`truthyN`
functions; Python `str.replace` (replace every occurrence, left to right)
is `pyReplace`; raised exceptions become `Except` errors (`ValueError` is
`invalidArgument`, `KeyError` on the status map is `unknownStatus`, the
generic run-failure `Exception` is `runFailed`, each carrying the Python
message or key).
-/

namespace DbtRunner

/-- HTTP method of a request built by the client. -/
inductive Method
  | GET
  | POST
  deriving DecidableEq

/-- JSON values that appear in the trigger-run request payload. -/
inductive JVal
  | str (s : String)
  | num (n : Nat)
  | arr (l : List String)
  deriving DecidableEq

/-- A request the client would hand to `urlopen`: method, URL, headers and,
for POSTs with a payload, the JSON object as an ordered key/value list
(Python dicts keep insertion order, which `json.dumps` preserves). -/
structure HttpRequest where
  method : Method
  url : String
  headers : List (String × String)
  body : Option (List (String × JVal))
  deriving DecidableEq

/-- Errors raised by the client.  `invalidArgument` is the `ValueError` of
`run_job`, `unknownStatus` the `KeyError` of an unmapped status code,
`runFailed` the `Exception` of `poll_run_status` (carrying its message,
which embeds the status link), and `scriptEnded` marks a polling loop that
would keep querying past the end of a scripted status sequence. -/
inductive DbtError
  | invalidArgument (msg : String)
  | unknownStatus (code : Nat)
  | runFailed (msg : String)
  | scriptEnded
  deriving DecidableEq

/-- The client's state after `__init__`: the four constructor fields plus
the precomputed header dict and account-scoped base URL. -/
structure Config where
  api_base : String
  api_key : String
  account_id : String
  project_id : String
  req_headers : List (String × String)
  base_url : String
  deriving DecidableEq

/-- Python truthiness of an `Optional[str]`: `None` and `""` are falsy. -/
def truthyS : Option String → Bool
  | none => false
  | some s => s != ""

/-- Python truthiness of an `Optional[list]`: `None` and `[]` are falsy. -/
def truthyL : Option (List String) → Bool
  | none => false
  | some l => !l.isEmpty

/-- Python truthiness of an `Optional[int]`: `None` and `0` are falsy. -/
def truthyN : Option Nat → Bool
  | none => false
  | some n => n != 0

/-- One left-to-right replacement pass over a character list, as in Python
`str.replace`: at each position, if the (non-empty) pattern starts here,
emit the replacement and skip past the pattern, otherwise keep the
character.  `fuel` bounds the recursion; with `fuel = s.length` it never
runs out, since every step consumes at least one input character. -/
def replaceFuel (pat rep : List Char) : Nat → List Char → List Char
  | _, [] => []
  | 0, s => s
  | fuel + 1, c :: rest =>
    if pat ≠ [] ∧ (c :: rest).take pat.length = pat then
      rep ++ replaceFuel pat rep fuel ((c :: rest).drop pat.length)
    else
      c :: replaceFuel pat rep fuel rest

/-- Python `s.replace(pat, rep)` for a non-empty pattern: every occurrence
of `pat` in `s` is replaced by `rep`, scanning left to right. -/
def pyReplace (s pat rep : String) : String :=
  String.mk (replaceFuel pat.data rep.data s.data.length s.data)

namespace DbtCloudRunner

/-- The class-level `run_status_map` dict: lookup of a status code, `none`
when the key is absent (Python would raise `KeyError`). -/
def run_status_map (code : Nat) : Option String :=
  if code = 1 then some "Queued"
  else if code = 2 then some "Starting"
  else if code = 3 then some "Running"
  else if code = 10 then some "Success"
  else if code = 20 then some "Error"
  else if code = 30 then some "Cancelled"
  else none

/-- `__init__`: stores the four fields and precomputes `req_headers` and
`base_url`.  The body performs no validation and cannot raise, so the
result is always `Except.ok`; the `Except` codomain records that a Python
constructor is a fallible call site. -/
def init (api_base api_key account_id project_id : String) :
    Except DbtError Config :=
  Except.ok
    { api_base := api_base
      api_key := api_key
      account_id := account_id
      project_id := project_id
      req_headers :=
        [("Authorization", "Token " ++ api_key),
         ("Content-Type", "application/json")]
      base_url := api_base ++ "/api/v2/accounts/" ++ account_id }

/-- `_get_run_url`. -/
def get_run_url (cfg : Config) (run_id : Nat) : String :=
  cfg.base_url ++ "/runs/" ++ toString run_id ++ "/"

/-- `_get_job_url`. -/
def get_job_url (cfg : Config) (job_id : Nat) : String :=
  cfg.base_url ++ "/jobs/" ++ toString job_id ++ "/run/"

/-- `_get_job_artifact_url`. -/
def get_job_artifact_url (cfg : Config) (job_id : Nat) (artifact : String) :
    String :=
  cfg.base_url ++ "/jobs/" ++ toString job_id ++ "/artifacts/" ++ artifact

/-- `_get_artifact_url`: the run URL plus `artifacts/{artifact_name}`, with
a `?step={step}` suffix only when `step` is truthy. -/
def get_artifact_url (cfg : Config) (artifact_name : String) (run_id : Nat)
    (step : Option String) : String :=
  get_run_url cfg run_id ++ "artifacts/" ++ artifact_name ++
    (if truthyS step then "?step=" ++ step.getD "" else "")

/-- `get_status_link`: the browser link to the run. -/
def get_status_link (cfg : Config) (run_id : Nat) : String :=
  cfg.api_base ++ "/deploy/" ++ cfg.account_id ++ "/projects/" ++
    cfg.project_id ++ "/runs/" ++ toString run_id ++ "/"

/-- The keyword arguments of `run_job`; optional parameters default to
`none` as in Python. -/
structure RunJobArgs where
  job_id : Nat
  job_cause : String
  git_branch : Option String := none
  git_sha : Option String := none
  schema_override : Option String := none
  steps_override : Option (List String) := none
  azure_pull_request_id : Option Nat := none
  deriving DecidableEq

/-- `run_job` up to the point where the request is handed to `urlopen`:
raises `ValueError` when both `git_branch` and `git_sha` are truthy
(before any URL or payload is built), otherwise assembles the payload dict
(`cause` first, then each truthy optional field in source order, with
`git_branch` passed through `.replace("refs/heads/", "")` and
`schema_override` through `.replace("-", "_")`) and returns the POST
request that is sent.  An `Except.error` result means no request was
constructed or sent. -/
def run_job (cfg : Config) (a : RunJobArgs) : Except DbtError HttpRequest :=
  if truthyS a.git_branch && truthyS a.git_sha then
    Except.error (DbtError.invalidArgument
      "Either git_branch or git_sha can be provided, not both")
  else
    let req_job_url := get_job_url cfg a.job_id
    let req_payload := [("cause", JVal.str a.job_cause)]
    let req_payload := req_payload ++
      (if truthyS a.git_branch then
        [("git_branch",
          JVal.str (pyReplace (a.git_branch.getD "") "refs/heads/" ""))]
      else [])
    let req_payload := req_payload ++
      (if truthyS a.git_sha then
        [("git_sha", JVal.str (a.git_sha.getD ""))]
      else [])
    let req_payload := req_payload ++
      (if truthyS a.schema_override then
        [("schema_override",
          JVal.str (pyReplace (a.schema_override.getD "") "-" "_"))]
      else [])
    let req_payload := req_payload ++
      (if truthyL a.steps_override then
        [("steps_override", JVal.arr (a.steps_override.getD []))]
      else [])
    let req_payload := req_payload ++
      (if truthyN a.azure_pull_request_id then
        [("azure_pull_request_id",
          JVal.num (a.azure_pull_request_id.getD 0))]
      else [])
    Except.ok
      { method := Method.POST
        url := req_job_url
        headers := cfg.req_headers
        body := some req_payload }

/-- `cancel_run`: the POST request it sends (note the URL is
`_get_run_url(run_id)` followed by the literal `"/cancel/"`), paired with
the upstream `is_success` flag, returned unmodified; the response is
scripted by `scripted_is_success`. -/
def cancel_run (cfg : Config) (run_id : Nat) (scripted_is_success : Bool) :
    HttpRequest × Bool :=
  ({ method := Method.POST
     url := get_run_url cfg run_id ++ "/cancel/"
     headers := cfg.req_headers
     body := none },
   scripted_is_success)

/-- `get_run_status` with the numeric status code of the scripted response:
looks the code up in `run_status_map` and raises `KeyError`
(`unknownStatus`) when it is absent. -/
def get_run_status (cfg : Config) (run_id : Nat) (scripted_code : Nat) :
    Except DbtError String :=
  match run_status_map scripted_code with
  | some s => Except.ok s
  | none => Except.error (DbtError.unknownStatus scripted_code)

/-- Observable side effects of `poll_run_status`, in order: a
`time.sleep(seconds)` call or one status query (one GET issued by
`get_run_status`). -/
inductive PollEvent
  | sleep (seconds : Nat)
  | query
  deriving DecidableEq

/-- The `while True` loop body of `poll_run_status`, run against a scripted
sequence of status codes (one per query): query the next code; on `Error`
or `Cancelled` raise the run-failure `Exception` carrying the status link;
on `Success` return; otherwise sleep `poll_interval` and loop.  Returns the
event trace together with the outcome; an exhausted script (the loop would
query again) yields `scriptEnded`. -/
def poll_loop (cfg : Config) (run_id poll_interval : Nat) :
    List Nat → List PollEvent × Except DbtError Unit
  | [] => ([], Except.error DbtError.scriptEnded)
  | code :: rest =>
    match get_run_status cfg run_id code with
    | Except.error e => ([PollEvent.query], Except.error e)
    | Except.ok status =>
      if status = "Error" ∨ status = "Cancelled" then
        ([PollEvent.query],
         Except.error (DbtError.runFailed
           ("Run failed or canceled. See why at " ++
             get_status_link cfg run_id)))
      else if status = "Success" then
        ([PollEvent.query], Except.ok ())
      else
        let r := poll_loop cfg run_id poll_interval rest
        (PollEvent.query :: PollEvent.sleep poll_interval :: r.1, r.2)

/-- `poll_run_status`: one initial `time.sleep(poll_interval)` and then the
polling loop. -/
def poll_run_status (cfg : Config) (run_id poll_interval : Nat)
    (script : List Nat) : List PollEvent × Except DbtError Unit :=
  let r := poll_loop cfg run_id poll_interval script
  (PollEvent.sleep poll_interval :: r.1, r.2)

/-- What an artifact fetch does with a 2xx response whose decoded body is
`body`: the GET request it sends, the `(path, content)` pair written by the
final `open(artifact_path, "w")` block, and the value returned to the
caller (`none` is Python `None`). -/
structure ArtifactFetch where
  request : HttpRequest
  fileWrite : String × String
  returned : Option String
  deriving DecidableEq

/-- `get_latest_job_artifact`: GETs the job artifact URL, writes the decoded
body to `artifact_path`, returns `None`. -/
def get_latest_job_artifact (cfg : Config) (job_id : Nat)
    (artifact artifact_path : String) (body : String) : ArtifactFetch :=
  { request :=
      { method := Method.GET
        url := get_job_artifact_url cfg job_id artifact
        headers := cfg.req_headers
        body := none }
    fileWrite := (artifact_path, body)
    returned := none }

/-- `get_run_artifact`: GETs the run artifact URL (with optional step query),
writes the decoded body to `artifact_path`, returns `None`. -/
def get_run_artifact (cfg : Config) (run_id : Nat)
    (artifact artifact_path : String) (step : Option String)
    (body : String) : ArtifactFetch :=
  { request :=
      { method := Method.GET
        url := get_artifact_url cfg artifact run_id step
        headers := cfg.req_headers
        body := none }
    fileWrite := (artifact_path, body)
    returned := none }

end DbtCloudRunner

/-- A concrete configuration used by witnesses and counterexamples. -/
def sampleCfg : Config :=
  { api_base := "https://cloud.getdbt.com"
    api_key := "k"
    account_id := "42"
    project_id := "9"
    req_headers :=
      [("Authorization", "Token k"),
       ("Content-Type", "application/json")]
    base_url := "https://cloud.getdbt.com/api/v2/accounts/42" }

/-- Sample `run_job` arguments used by witnesses: a truthy branch and a
truthy sha together. -/
def bothArgs : DbtCloudRunner.RunJobArgs :=
  { job_id := 1, job_cause := "ci", git_branch := some "main",
    git_sha := some "0a1b2c" }

/-- Sample `run_job` arguments used by witnesses: only a truthy sha. -/
def shaArgs : DbtCloudRunner.RunJobArgs :=
  { job_id := 1, job_cause := "ci", git_sha := some "0a1b2c" }

/-- C2: for each code in {1, 2, 3, 10, 20, 30}, `get_run_status` returns
exactly the label of the fixed table; for every code outside the set it
fails with `UnknownStatusError` (the `KeyError` of the dict lookup), never
a default label. -/
theorem get_run_status_table (cfg : Config) (run_id : Nat) :
    (DbtCloudRunner.get_run_status cfg run_id 1 = Except.ok "Queued" ∧
     DbtCloudRunner.get_run_status cfg run_id 2 = Except.ok "Starting" ∧
     DbtCloudRunner.get_run_status cfg run_id 3 = Except.ok "Running" ∧
     DbtCloudRunner.get_run_status cfg run_id 10 = Except.ok "Success" ∧
     DbtCloudRunner.get_run_status cfg run_id 20 = Except.ok "Error" ∧
     DbtCloudRunner.get_run_status cfg run_id 30 = Except.ok "Cancelled") ∧
    ∀ code : Nat, code ∉ ([1, 2, 3, 10, 20, 30] : List Nat) →
      DbtCloudRunner.get_run_status cfg run_id code =
        Except.error (DbtError.unknownStatus code) := by
  refine ⟨⟨rfl, rfl, rfl, rfl, rfl, rfl⟩, ?_⟩
  intro code h
  simp only [List.mem_cons, List.not_mem_nil, or_false, not_or] at h
  obtain ⟨h1, h2, h3, h10, h20, h30⟩ := h
  simp [DbtCloudRunner.get_run_status, DbtCloudRunner.run_status_map,
    h1, h2, h3, h10, h20, h30]

/-- Witness for C2 at code 5, which is outside the table. -/
theorem get_run_status_table_witness :
    (5 : Nat) ∉ ([1, 2, 3, 10, 20, 30] : List Nat) ∧
    DbtCloudRunner.get_run_status sampleCfg 7 5 =
      Except.error (DbtError.unknownStatus 5) :=
  ⟨by decide, (get_run_status_table sampleCfg 7).2 5 (by decide)⟩

/-- C3: when both `git_branch` and `git_sha` are (truthy) supplied,
`run_job` fails with the `ValueError` before any request is built; the
`Except.error` result of the embedding carries no `HttpRequest`, i.e. no
request was constructed or sent. -/
theorem run_job_mutual_exclusion (cfg : Config)
    (a : DbtCloudRunner.RunJobArgs)
    (hb : truthyS a.git_branch = true) (hs : truthyS a.git_sha = true) :
    DbtCloudRunner.run_job cfg a =
      Except.error (DbtError.invalidArgument
        "Either git_branch or git_sha can be provided, not both") := by
  simp [DbtCloudRunner.run_job, hb, hs]

/-- Witness for C3: both a branch and a sha supplied. -/
theorem run_job_mutual_exclusion_witness :
    truthyS bothArgs.git_branch = true ∧ truthyS bothArgs.git_sha = true ∧
    DbtCloudRunner.run_job sampleCfg bothArgs =
      Except.error (DbtError.invalidArgument
        "Either git_branch or git_sha can be provided, not both") :=
  ⟨by decide, by decide,
   run_job_mutual_exclusion sampleCfg bothArgs (by decide) (by decide)⟩

/-- C4 (code bug): `cancel_run` appends the literal `"/cancel/"` to
`_get_run_url`, which already ends in a slash, so the POST goes to
`.../runs/{run_id}//cancel/` with a double slash, not the single-slash
path `.../runs/{run_id}/cancel/` of the spec's endpoint table. -/
theorem cancel_run_url_double_slash :
    (DbtCloudRunner.cancel_run sampleCfg 7 true).1.url =
      "https://cloud.getdbt.com/api/v2/accounts/42/runs/7//cancel/" ∧
    (DbtCloudRunner.cancel_run sampleCfg 7 true).1.url ≠
      "https://cloud.getdbt.com/api/v2/accounts/42/runs/7/cancel/" ∧
    (DbtCloudRunner.cancel_run sampleCfg 7 true).1.method = Method.POST := by
  refine ⟨by decide, by decide, rfl⟩

/-- C5 counterexample: on a 2xx response with body `"BODY"`, both artifact
operations return `None` to the caller, not the decoded body text. -/
theorem artifact_fetch_returns_none :
    (DbtCloudRunner.get_run_artifact sampleCfg 7 "manifest.json"
        "target/manifest.json" none "BODY").returned = none ∧
    (DbtCloudRunner.get_run_artifact sampleCfg 7 "manifest.json"
        "target/manifest.json" none "BODY").returned ≠ some "BODY" ∧
    (DbtCloudRunner.get_latest_job_artifact sampleCfg 3 "manifest.json"
        "target/manifest.json" "BODY").returned = none ∧
    (DbtCloudRunner.get_latest_job_artifact sampleCfg 3 "manifest.json"
        "target/manifest.json" "BODY").returned ≠ some "BODY" :=
  ⟨rfl, by decide, rfl, by decide⟩

/-- C5 amended: on a 2xx response the artifact operations write the exact
decoded text body, unmodified, to the caller-supplied `artifact_path`, and
return `None` (nothing is returned to the caller). -/
theorem artifact_fetch_writes_exact_body (cfg : Config)
    (run_id job_id : Nat) (artifact artifact_path : String)
    (step : Option String) (body : String) :
    (DbtCloudRunner.get_run_artifact cfg run_id artifact artifact_path
        step body).fileWrite = (artifact_path, body) ∧
    (DbtCloudRunner.get_run_artifact cfg run_id artifact artifact_path
        step body).returned = none ∧
    (DbtCloudRunner.get_latest_job_artifact cfg job_id artifact
        artifact_path body).fileWrite = (artifact_path, body) ∧
    (DbtCloudRunner.get_latest_job_artifact cfg job_id artifact
        artifact_path body).returned = none :=
  ⟨rfl, rfl, rfl, rfl⟩

/-- C6 counterexample: constructing the client with all four required
fields empty succeeds; no `ConfigurationError` (nor any error) is raised. -/
theorem init_empty_fields_succeeds :
    (DbtCloudRunner.init "" "" "" "").isOk = true :=
  rfl

/-- C6 amended: construction never validates its fields; it succeeds for
every input (empty strings included), storing the four fields and
precomputing the Token authorization header, the JSON content-type header,
and the account-scoped base URL. -/
theorem init_never_fails (api_base api_key account_id project_id : String) :
    ∃ cfg : Config,
      DbtCloudRunner.init api_base api_key account_id project_id =
        Except.ok cfg ∧
      cfg.api_base = api_base ∧ cfg.api_key = api_key ∧
      cfg.account_id = account_id ∧ cfg.project_id = project_id ∧
      cfg.req_headers =
        [("Authorization", "Token " ++ api_key),
         ("Content-Type", "application/json")] ∧
      cfg.base_url = api_base ++ "/api/v2/accounts/" ++ account_id :=
  ⟨_, rfl, rfl, rfl, rfl, rfl, rfl, rfl⟩

/-- C10: the run-scoped artifact URL is the run URL plus
`artifacts/{artifact_name}` with no query suffix when `step` is `None` or
the empty string, and gains `?step={step}` exactly when `step` is truthy. -/
theorem get_artifact_url_step (cfg : Config) (artifact : String)
    (run_id : Nat) :
    DbtCloudRunner.get_artifact_url cfg artifact run_id none =
      DbtCloudRunner.get_run_url cfg run_id ++ "artifacts/" ++ artifact ∧
    DbtCloudRunner.get_artifact_url cfg artifact run_id (some "") =
      DbtCloudRunner.get_run_url cfg run_id ++ "artifacts/" ++ artifact ∧
    ∀ s : String, s ≠ "" →
      DbtCloudRunner.get_artifact_url cfg artifact run_id (some s) =
        DbtCloudRunner.get_run_url cfg run_id ++ "artifacts/" ++ artifact ++
          "?step=" ++ s := by
  refine ⟨?_, ?_, ?_⟩
  · simp [DbtCloudRunner.get_artifact_url, truthyS]
  · simp [DbtCloudRunner.get_artifact_url, truthyS]
  · intro s hs
    simp [DbtCloudRunner.get_artifact_url, truthyS, hs,
      String.append_assoc]

/-- Witness for C10 with the truthy step `"build"`. -/
theorem get_artifact_url_step_witness :
    ("build" : String) ≠ "" ∧
    DbtCloudRunner.get_artifact_url sampleCfg "manifest.json" 7
        (some "build") =
      DbtCloudRunner.get_run_url sampleCfg 7 ++ "artifacts/" ++
        "manifest.json" ++ "?step=" ++ "build" :=
  ⟨by decide,
   (get_artifact_url_step sampleCfg "manifest.json" 7).2.2 "build"
     (by decide)⟩

/-- C7 counterexample: `run_job` passes `git_branch` through
`str.replace("refs/heads/", "")`, which removes every occurrence, so a
non-leading occurrence is not left intact: the branch value
`"a/refs/heads/b"` is sent as `"a/b"`. -/
theorem run_job_nonleading_refs_removed :
    DbtCloudRunner.run_job sampleCfg
        { job_id := 1, job_cause := "ci",
          git_branch := some "a/refs/heads/b" } =
      Except.ok
        { method := Method.POST
          url := "https://cloud.getdbt.com/api/v2/accounts/42/jobs/1/run/"
          headers :=
            [("Authorization", "Token k"),
             ("Content-Type", "application/json")]
          body := some
            [("cause", JVal.str "ci"), ("git_branch", JVal.str "a/b")] } ∧
    JVal.str "a/b" ≠ JVal.str "a/refs/heads/b" :=
  ⟨rfl, by decide⟩

/-- C7 amended: every occurrence of the substring `refs/heads/` in the
`git_branch` value is removed (Python `str.replace` in one left-to-right
pass) before the value is placed in the request body, not only a leading
prefix; in particular `refs/heads/main` is sent as `main`, and the
non-leading occurrence in `a/refs/heads/b` is removed too. -/
theorem run_job_git_branch_replace_all (cfg : Config)
    (a : DbtCloudRunner.RunJobArgs)
    (hb : truthyS a.git_branch = true) (hs : truthyS a.git_sha = false) :
    (∃ req l, DbtCloudRunner.run_job cfg a = Except.ok req ∧
      req.body = some l ∧
      l.lookup "git_branch" =
        some (JVal.str (pyReplace (a.git_branch.getD "")
          "refs/heads/" ""))) ∧
    pyReplace "refs/heads/main" "refs/heads/" "" = "main" ∧
    pyReplace "a/refs/heads/b" "refs/heads/" "" = "a/b" ∧
    pyReplace "refs/heads/refs/heads/x" "refs/heads/" "" = "x" := by
  refine ⟨?_, rfl, rfl, rfl⟩
  simp only [DbtCloudRunner.run_job, hb, hs, Bool.true_and, Bool.false_eq_true,
    if_false, if_true, List.singleton_append, List.cons_append,
    List.nil_append, List.append_assoc]
  exact ⟨_, _, rfl, rfl, by simp [List.lookup]⟩

/-- Witness arguments for C7: a branch with the ref-namespace prefix. -/
def refsArgs : DbtCloudRunner.RunJobArgs :=
  { job_id := 1, job_cause := "ci", git_branch := some "refs/heads/main" }

/-- Witness for C7's amended theorem at `refsArgs`. -/
theorem run_job_git_branch_replace_all_witness :
    truthyS refsArgs.git_branch = true ∧
    truthyS refsArgs.git_sha = false ∧
    ((∃ req l, DbtCloudRunner.run_job sampleCfg refsArgs = Except.ok req ∧
      req.body = some l ∧
      l.lookup "git_branch" =
        some (JVal.str (pyReplace (refsArgs.git_branch.getD "")
          "refs/heads/" ""))) ∧
    pyReplace "refs/heads/main" "refs/heads/" "" = "main" ∧
    pyReplace "a/refs/heads/b" "refs/heads/" "" = "a/b" ∧
    pyReplace "refs/heads/refs/heads/x" "refs/heads/" "" = "x") :=
  ⟨by decide, by decide,
   run_job_git_branch_replace_all sampleCfg refsArgs (by decide) (by decide)⟩

/-- C8: whenever the mutual-exclusion check does not fire, the keys of the
JSON body are exactly `cause` followed by one key for each truthy-supplied
optional field, in source order; unsupplied (or falsy) fields contribute no
key at all, never a null. -/
theorem run_job_body_keys (cfg : Config) (a : DbtCloudRunner.RunJobArgs)
    (h : (truthyS a.git_branch && truthyS a.git_sha) = false) :
    ∃ req, DbtCloudRunner.run_job cfg a = Except.ok req ∧
      req.body.map (fun l => l.map Prod.fst) = some
        (["cause"] ++
         (if truthyS a.git_branch then ["git_branch"] else []) ++
         (if truthyS a.git_sha then ["git_sha"] else []) ++
         (if truthyS a.schema_override then ["schema_override"] else []) ++
         (if truthyL a.steps_override then ["steps_override"] else []) ++
         (if truthyN a.azure_pull_request_id then
           ["azure_pull_request_id"] else [])) := by
  cases h1 : truthyS a.git_branch <;> cases h2 : truthyS a.git_sha <;>
    cases h3 : truthyS a.schema_override <;>
      cases h4 : truthyL a.steps_override <;>
        cases h5 : truthyN a.azure_pull_request_id <;>
    simp_all [DbtCloudRunner.run_job]

/-- Witness for C8 at `shaArgs` (only `git_sha` supplied): the body keys
are exactly `cause` and `git_sha`. -/
theorem run_job_body_keys_witness :
    (truthyS shaArgs.git_branch && truthyS shaArgs.git_sha) = false ∧
    ∃ req, DbtCloudRunner.run_job sampleCfg shaArgs = Except.ok req ∧
      req.body.map (fun l => l.map Prod.fst) = some
        (["cause"] ++
         (if truthyS shaArgs.git_branch then ["git_branch"] else []) ++
         (if truthyS shaArgs.git_sha then ["git_sha"] else []) ++
         (if truthyS shaArgs.schema_override then
           ["schema_override"] else []) ++
         (if truthyL shaArgs.steps_override then
           ["steps_override"] else []) ++
         (if truthyN shaArgs.azure_pull_request_id then
           ["azure_pull_request_id"] else [])) :=
  ⟨by decide, run_job_body_keys sampleCfg shaArgs (by decide)⟩

/-- C9: a falsy supplied optional field (empty string, empty list, zero)
behaves exactly like an unsupplied one — `run_job` builds the same request
— and the mutual-exclusion check does not fire when either of
`git_branch`/`git_sha` is falsy: an empty branch with any sha, and any
branch with an empty sha, both succeed. -/
theorem run_job_falsy_fields (cfg : Config)
    (a : DbtCloudRunner.RunJobArgs) :
    DbtCloudRunner.run_job cfg { a with git_branch := some "" } =
      DbtCloudRunner.run_job cfg { a with git_branch := none } ∧
    DbtCloudRunner.run_job cfg { a with git_sha := some "" } =
      DbtCloudRunner.run_job cfg { a with git_sha := none } ∧
    DbtCloudRunner.run_job cfg { a with schema_override := some "" } =
      DbtCloudRunner.run_job cfg { a with schema_override := none } ∧
    DbtCloudRunner.run_job cfg { a with steps_override := some [] } =
      DbtCloudRunner.run_job cfg { a with steps_override := none } ∧
    DbtCloudRunner.run_job cfg { a with azure_pull_request_id := some 0 } =
      DbtCloudRunner.run_job cfg { a with azure_pull_request_id := none } ∧
    (∀ sha : String,
      (DbtCloudRunner.run_job cfg { a with git_branch := some "", git_sha := some sha }).isOk = true) ∧
    (∀ b : String,
      (DbtCloudRunner.run_job cfg { a with git_branch := some b, git_sha := some "" }).isOk = true) := by
  refine ⟨rfl, rfl, rfl, rfl, rfl, fun sha => rfl, fun b => ?_⟩
  cases hb : truthyS (some b) <;>
    simp [DbtCloudRunner.run_job, hb, truthyS, Except.isOk, Except.toBool]

/-- One loop iteration trace shape: the trace of `poll_loop` is some number
of `[query, sleep]` blocks, closed by a final `query` when the loop
reached a terminal (or unknown) status within the script. -/
theorem poll_loop_shape (cfg : Config) (run_id p : Nat) :
    ∀ script : List Nat,
      (∃ k, (DbtCloudRunner.poll_loop cfg run_id p script).1 =
        (List.replicate k [DbtCloudRunner.PollEvent.query,
          DbtCloudRunner.PollEvent.sleep p]).flatten ++
          [DbtCloudRunner.PollEvent.query]) ∨
      (∃ k, (DbtCloudRunner.poll_loop cfg run_id p script).1 =
        (List.replicate k [DbtCloudRunner.PollEvent.query,
          DbtCloudRunner.PollEvent.sleep p]).flatten)
  | [] => Or.inr ⟨0, rfl⟩
  | code :: rest => by
    unfold DbtCloudRunner.poll_loop
    cases hgs : DbtCloudRunner.get_run_status cfg run_id code with
    | error e => exact Or.inl ⟨0, rfl⟩
    | ok status =>
      by_cases h1 : status = "Error" ∨ status = "Cancelled"
      · simp only [h1, if_true]
        exact Or.inl ⟨0, rfl⟩
      · by_cases h2 : status = "Success"
        · simp only [h1, if_false, h2, if_true]
          exact Or.inl ⟨0, rfl⟩
        · simp only [h1, if_false, h2]
          rcases poll_loop_shape cfg run_id p rest with ⟨k, hk⟩ | ⟨k, hk⟩
          · refine Or.inl ⟨k + 1, ?_⟩
            simp [hk, List.replicate_succ]
          · refine Or.inr ⟨k + 1, ?_⟩
            simp [hk, List.replicate_succ]

/-- Prepending the initial sleep to a loop trace that ended at a terminal
status yields whole `[sleep, query]` blocks. -/
theorem sleep_cons_closed (p k : Nat) :
    DbtCloudRunner.PollEvent.sleep p ::
      ((List.replicate k [DbtCloudRunner.PollEvent.query,
        DbtCloudRunner.PollEvent.sleep p]).flatten ++
        [DbtCloudRunner.PollEvent.query]) =
    (List.replicate (k + 1) [DbtCloudRunner.PollEvent.sleep p,
      DbtCloudRunner.PollEvent.query]).flatten := by
  induction k with
  | zero => rfl
  | succ k ih =>
    simp only [List.replicate_succ, List.flatten_cons] at ih ⊢
    simp only [List.cons_append, List.append_assoc] at ih ⊢
    simp [ih]

/-- Prepending the initial sleep to a loop trace that exhausted the script
yields whole `[sleep, query]` blocks followed by a trailing sleep. -/
theorem sleep_cons_open (p k : Nat) :
    DbtCloudRunner.PollEvent.sleep p ::
      (List.replicate k [DbtCloudRunner.PollEvent.query,
        DbtCloudRunner.PollEvent.sleep p]).flatten =
    (List.replicate k [DbtCloudRunner.PollEvent.sleep p,
      DbtCloudRunner.PollEvent.query]).flatten ++
      [DbtCloudRunner.PollEvent.sleep p] := by
  induction k with
  | zero => rfl
  | succ k ih =>
    simp only [List.replicate_succ, List.flatten_cons] at ih ⊢
    simp only [List.cons_append, List.append_assoc] at ih ⊢
    simp [ih]

/-- C1: `poll_run_status` sleeps one `poll_interval` before the first
query and its whole event trace is `[sleep, query]` blocks at the fixed
interval (with a trailing sleep exactly when the scripted sequence ran
out); the script `[2, 3, 10]` (Starting, Running, Success) returns
normally after exactly 3 queries, and `[3, 20]` (Running, Error) fails
after exactly 2 queries with the run-failure error whose message carries
the status link, which has the form
`{base}/deploy/{account}/projects/{project}/runs/{run_id}/`. -/
theorem poll_run_status_spec (cfg : Config) (run_id p : Nat) :
    DbtCloudRunner.poll_run_status cfg run_id p [2, 3, 10] =
      ((List.replicate 3 [DbtCloudRunner.PollEvent.sleep p,
        DbtCloudRunner.PollEvent.query]).flatten, Except.ok ()) ∧
    DbtCloudRunner.poll_run_status cfg run_id p [3, 20] =
      ((List.replicate 2 [DbtCloudRunner.PollEvent.sleep p,
        DbtCloudRunner.PollEvent.query]).flatten,
       Except.error (DbtError.runFailed
         ("Run failed or canceled. See why at " ++
           DbtCloudRunner.get_status_link cfg run_id))) ∧
    DbtCloudRunner.get_status_link cfg run_id =
      cfg.api_base ++ "/deploy/" ++ cfg.account_id ++ "/projects/" ++
        cfg.project_id ++ "/runs/" ++ toString run_id ++ "/" ∧
    ∀ script : List Nat, ∃ n,
      (DbtCloudRunner.poll_run_status cfg run_id p script).1 =
        (List.replicate n [DbtCloudRunner.PollEvent.sleep p,
          DbtCloudRunner.PollEvent.query]).flatten ∨
      (DbtCloudRunner.poll_run_status cfg run_id p script).1 =
        (List.replicate n [DbtCloudRunner.PollEvent.sleep p,
          DbtCloudRunner.PollEvent.query]).flatten ++
          [DbtCloudRunner.PollEvent.sleep p] := by
  refine ⟨rfl, rfl, ?_, ?_⟩
  · simp [DbtCloudRunner.get_status_link, String.append_assoc]
  · intro script
    rcases poll_loop_shape cfg run_id p script with ⟨k, hk⟩ | ⟨k, hk⟩
    · exact ⟨k + 1, Or.inl (by
        simp only [DbtCloudRunner.poll_run_status, hk]
        exact sleep_cons_closed p k)⟩
    · exact ⟨k, Or.inr (by
        simp only [DbtCloudRunner.poll_run_status, hk]
        exact sleep_cons_open p k)⟩

end DbtRunner
